import Mathlib

/-!
# GarageSenso — verification of the state-inference and event-publication loop

Shallow embedding of `src/main.cpp` (the whole repository is this one Arduino
sketch).  Pure data flow is modelled by Lean functions; the mutable file-scope
globals of the sketch become an explicit `LoopState` threaded through a
per-tick transition function `loopTick`; externally visible side effects
(MQTT publishes, serial distance logs, LED writes, blocking delays) become an
emitted `List Event`.

Modelling decisions, recorded once here:

* Distances.  The sketch computes `cm = 10650.08 * pow(sensor_read, -0.935) - 10`
  and `newdistance = roundf(cm)` in IEEE floating point.  We model the
  mathematical value with real arithmetic (`cmOf`, using `Real.rpow`) and the
  rounded result as `Option ℤ`, where `none` stands for the IEEE value `+inf`:
  for `sensor_read = 0`, C `pow(0, y)` with `y < 0` returns `+HUGE_VAL` (+inf,
  no trap/crash), `roundf(+inf) = +inf`, `+inf >= 20` is true and
  `+inf == +inf` is true, which is exactly the `none` arithmetic below.
  All finite values reached are exact small integers (outputs of `roundf`), so
  modelling float equality by `Option ℤ` equality is faithful.
* The file-scope global `newdistance` (main.cpp line 43) is *shadowed* by the
  local `float newdistance` declared in `loop()` (line 179) and is never read
  or written anywhere; it is dead and therefore omitted from `LoopState`.
  The global `olddistance` (line 42) is genuinely updated each tick at
  line 209 from the tick-local value, and — being a file-scope float — is
  zero-initialized before `setup()` runs, hence `initState.olddistance = some 0`.
* DHT reads are modelled as `Option ℚ`: `none` stands for the NaN the DHT
  library returns on a failed read; `dtostrf` formats NaN into the text
  `"nan"`, so a published `Pay.reading none` is the "unavailable" marker and
  `Pay.reading (some q)` the formatted numeric string.
* `millis()` time is modelled as `ℤ` (the sketch stores it into `long`).
* LED pins: `setup()` configures `LED_RED`/`LED_GREEN` as outputs but performs
  no `digitalWrite`; GPIO outputs start at the LOW level, so both indicator
  booleans start `false`.
-/

/-- Topic `MQTT_TOPIC` from main.cpp line 31. -/
def MQTT_TOPIC : String := "garagedoor"

/-- Topic `MQTT_SENSORS` from main.cpp line 32. -/
def MQTT_SENSORS : String := "pong"

/-- Topic `MQTT_TEMP` from main.cpp line 33. -/
def MQTT_TEMP : String := "garage_temp"

/-- Topic `MQTT_HUMI` from main.cpp line 34. -/
def MQTT_HUMI : String := "garage_humi"

/-- `SLEEPMS` from main.cpp line 29. -/
def SLEEPMS : ℕ := 900

/-- A published payload: either a fixed ASCII text from the sketch, or the
`dtostrf`-formatted buffer of a DHT reading (`none` = NaN, printed `"nan"`). -/
inductive Pay where
  | txt (s : String)
  | reading (x : Option ℚ)
  deriving DecidableEq, Repr

/-- The LED pins driven by the sketch (`LED_GREEN` = GPIO 4, `LED_RED` = GPIO 0). -/
inductive Pin where
  | green
  | red
  deriving DecidableEq, Repr

/-- Externally visible side effects of one pass through the code, in program
order: `client.publish`, the `Serial` "New distance" log, `digitalWrite`, and
blocking `delay(ms)`. -/
inductive Event where
  | publish (topic : String) (payload : Pay)
  | logNewDistance (d : Option ℤ)
  | digitalWrite (pin : Pin) (high : Bool)
  | delayMs (n : ℕ)
  deriving DecidableEq, Repr

/-- The mutable file-scope state of the sketch that `loop()` reads and writes
(main.cpp lines 40–46), plus the two LED output levels as modelled hardware
state.  `olddistance` uses `none` for IEEE `+inf` (see header comment). -/
structure LoopState where
  oldstate : Bool
  state : Bool
  olddistance : Option ℤ
  last_msg_sent : ℤ
  ledGreen : Bool
  ledRed : Bool
  deriving DecidableEq, Repr

/-- State after `setup()` (main.cpp lines 101–140): `oldstate = state = true`
(lines 138–139), `olddistance` zero-initialized file-scope float,
`last_msg_sent = 0` (line 46), both LEDs at the LOW reset level (pinMode only,
no digitalWrite in setup). -/
def initState : LoopState :=
  { oldstate := true
    state := true
    olddistance := some 0
    last_msg_sent := 0
    ledGreen := false
    ledRed := false }

/-- One tick's inputs from the environment: broker connectivity, the outcomes
of successive `client.connect` attempts while disconnected, `millis()`, the two
DHT reads (`none` = NaN), and the rounded distance derived from the analog
sample (`none` = +inf). -/
structure TickInput where
  connected : Bool
  attempts : List Bool
  now : ℤ
  temp : Option ℚ
  humi : Option ℚ
  dist : Option ℤ
  deriving DecidableEq, Repr

/-- `reconnect()` (main.cpp lines 70–93): loop while not connected; each
attempt either succeeds — publish `"sensor_online"` on `MQTT_TOPIC` and fall
out of the loop — or fails and blocks in `delay(5000)` before the next
attempt.  Modelled over the finite list of attempt outcomes observed. -/
def reconnectTrace : List Bool → List Event
  | [] => []
  | true :: _ => [Event.publish MQTT_TOPIC (Pay.txt "sensor_online")]
  | false :: rest => Event.delayMs 5000 :: reconnectTrace rest

/-- The three publishes of one telemetry fire, in program order (main.cpp
lines 158, 168, 169): the `"ping"` liveness message, then the `dtostrf`-formatted
temperature, then the `dtostrf`-formatted humidity. -/
def telemetryBatch (temp humi : Option ℚ) : List Event :=
  [Event.publish MQTT_SENSORS (Pay.txt "ping"),
   Event.publish MQTT_TEMP (Pay.reading temp),
   Event.publish MQTT_HUMI (Pay.reading humi)]

/-- The telemetry block of `loop()` (main.cpp lines 154–174): if
`now - last_msg_sent > 10000`, set `last_msg_sent = now` and publish `"ping"`,
then the formatted temperature, then the formatted humidity.  Returns the new
`last_msg_sent` and the emitted events. -/
def telemetryStep (now : ℤ) (temp humi : Option ℚ) (last_msg_sent : ℤ) :
    ℤ × List Event :=
  if 10000 < now - last_msg_sent then
    (now, telemetryBatch temp humi)
  else
    (last_msg_sent, [])

/-- `newdistance >= 20` (main.cpp line 186), with `none` = +inf compared as
IEEE +inf (`+inf >= 20` is true). -/
def doorOf : Option ℤ → Bool
  | none => true
  | some x => decide (20 ≤ x)

/-- The distance/state block of `loop()` (main.cpp lines 176–209): log
`"New distance"` when `olddistance != newdistance` (line 181), classify
(lines 186–190), on a state change publish the edge message and drive the two
LEDs (lines 193–205), then save `oldstate` and `olddistance` (lines 208–209).
Returns the updated state and the emitted events. -/
def distanceStep (dist : Option ℤ) (s : LoopState) : LoopState × List Event :=
  let logEvents := if s.olddistance ≠ dist then [Event.logNewDistance dist] else []
  let state := doorOf dist
  let edge :=
    if state ≠ s.oldstate then
      if state then
        ([Event.publish MQTT_TOPIC (Pay.txt "garage_opened"),
          Event.digitalWrite Pin.green true, Event.digitalWrite Pin.red false],
         true, false)
      else
        ([Event.publish MQTT_TOPIC (Pay.txt "garage_closed"),
          Event.digitalWrite Pin.green false, Event.digitalWrite Pin.red true],
         false, true)
    else ([], s.ledGreen, s.ledRed)
  ({ oldstate := state
     state := state
     olddistance := dist
     last_msg_sent := s.last_msg_sent
     ledGreen := edge.2.1
     ledRed := edge.2.2 },
   logEvents ++ edge.1)

/-- One full pass through `loop()` (main.cpp lines 147–213): reconnect if the
broker is disconnected, run the telemetry block, run the distance/state block,
finish with `delay(SLEEPMS)`. -/
def loopTick (inp : TickInput) (s : LoopState) : LoopState × List Event :=
  let reconn := if inp.connected then [] else reconnectTrace inp.attempts
  let tele := telemetryStep inp.now inp.temp inp.humi s.last_msg_sent
  let dist := distanceStep inp.dist { s with last_msg_sent := tele.1 }
  (dist.1, reconn ++ tele.2 ++ dist.2 ++ [Event.delayMs SLEEPMS])

/-- Is this event a door-state edge publish (`"garage_opened"` or
`"garage_closed"` on `MQTT_TOPIC`, main.cpp lines 196 and 201)? -/
def isEdgePub : Event → Bool
  | Event.publish t (Pay.txt p) =>
      t == MQTT_TOPIC && (p == "garage_opened" || p == "garage_closed")
  | _ => false

/-- The door-state edge publishes among a tick's events, in order. -/
def edgePubs (evs : List Event) : List Event := evs.filter isEdgePub

/-- Is this event a publish on one of the three telemetry topics
(`MQTT_SENSORS`, `MQTT_TEMP`, `MQTT_HUMI`)? -/
def isTelemetryPub : Event → Bool
  | Event.publish t _ => t == MQTT_SENSORS || t == MQTT_TEMP || t == MQTT_HUMI
  | _ => false

/-- The telemetry publishes among a tick's events, in order. -/
def telemetryPubs (evs : List Event) : List Event := evs.filter isTelemetryPub

/-- Is this event the serial `"New distance"` log (main.cpp lines 182–183)? -/
def isDistLog : Event → Bool
  | Event.logNewDistance _ => true
  | _ => false

/-- The distance-change log events among a tick's events, in order. -/
def distLogs (evs : List Event) : List Event := evs.filter isDistLog

/-- `cm = 10650.08 * pow(sensor_read, -0.935) - 10` (main.cpp line 178),
as a real number, for the analog sample `raw`. -/
noncomputable def cmOf (raw : ℕ) : ℝ := 10650.08 * (raw : ℝ) ^ (-0.935 : ℝ) - 10

/-- `newdistance = roundf(cm)` (main.cpp line 179).  For `raw = 0`, C
`pow(0, -0.935)` returns `+HUGE_VAL` (+inf, no trap), `roundf(+inf) = +inf`,
modelled `none`; for positive `raw` the real-valued formula applies and
`roundf` (round half away from zero, here on a value > -10.5) agrees with
Mathlib's `round` (round half up) on every value the formula can take at
integer inputs, all of which are bounded away from half-integers. -/
noncomputable def distOfRaw : ℕ → Option ℤ
  | 0 => none
  | (r + 1) => some (round (cmOf (r + 1)))

/-- `500^0.935 ≤ 361`, by raising both sides to the 200th power. -/
theorem rpow500_le : (500 : ℝ) ^ (0.935 : ℝ) ≤ 361 := by
  have h500 : (0 : ℝ) ≤ 500 := by norm_num
  have key : ((500 : ℝ) ^ (0.935 : ℝ)) ^ (200 : ℕ) ≤ (361 : ℝ) ^ (200 : ℕ) := by
    have h1 : ((500 : ℝ) ^ (0.935 : ℝ)) ^ (200 : ℕ) = (500 : ℝ) ^ (187 : ℕ) := by
      rw [← Real.rpow_natCast ((500 : ℝ) ^ (0.935 : ℝ)) 200, ← Real.rpow_mul h500,
        ← Real.rpow_natCast (500 : ℝ) 187]
      norm_num
    rw [h1]
    norm_num
  exact le_of_pow_le_pow_left₀ (by norm_num) (by norm_num) key

/-- The calibration curve at the raw sample 500 gives at least 19.5 cm. -/
theorem cmOf_500_ge : (19.5 : ℝ) ≤ cmOf 500 := by
  have h500 : (0 : ℝ) ≤ 500 := by norm_num
  have ha : (0 : ℝ) < (500 : ℝ) ^ (0.935 : ℝ) := Real.rpow_pos_of_pos (by norm_num) _
  have hinv : (361 : ℝ)⁻¹ ≤ ((500 : ℝ) ^ (0.935 : ℝ))⁻¹ :=
    inv_anti₀ ha rpow500_le
  have hmul : 10650.08 * (361 : ℝ)⁻¹ ≤ 10650.08 * ((500 : ℝ) ^ (0.935 : ℝ))⁻¹ :=
    mul_le_mul_of_nonneg_left hinv (by norm_num)
  have hbase : (29.5 : ℝ) ≤ 10650.08 * (361 : ℝ)⁻¹ := by norm_num
  unfold cmOf
  push_cast
  rw [Real.rpow_neg h500]
  linarith

/-- The rounded distance at raw sample 500 passes the 20 cm threshold. -/
theorem round_cmOf_500_ge : 20 ≤ round (cmOf 500) := by
  rw [round_eq, Int.le_floor]
  have := cmOf_500_ge
  push_cast
  linarith

/-! ## Trace lemmas for the step functions -/

/-- `reconnect()` never publishes a door-state edge message. -/
theorem edgePubs_reconnectTrace (l : List Bool) : edgePubs (reconnectTrace l) = [] := by
  induction l with
  | nil => rfl
  | cons b rest ih =>
    cases b
    · exact ih
    · rfl

/-- `reconnect()` never publishes on a telemetry topic. -/
theorem telemetryPubs_reconnectTrace (l : List Bool) :
    telemetryPubs (reconnectTrace l) = [] := by
  induction l with
  | nil => rfl
  | cons b rest ih =>
    cases b
    · exact ih
    · rfl

/-- `reconnect()` never emits a distance log. -/
theorem distLogs_reconnectTrace (l : List Bool) : distLogs (reconnectTrace l) = [] := by
  induction l with
  | nil => rfl
  | cons b rest ih =>
    cases b
    · exact ih
    · rfl

/-- The telemetry batch contains no door-state edge publish. -/
theorem edgePubs_telemetryBatch (t h : Option ℚ) : edgePubs (telemetryBatch t h) = [] := rfl

/-- Every event of the telemetry batch is a telemetry publish. -/
theorem telemetryPubs_telemetryBatch (t h : Option ℚ) :
    telemetryPubs (telemetryBatch t h) = telemetryBatch t h := rfl

/-- The telemetry batch contains no distance log. -/
theorem distLogs_telemetryBatch (t h : Option ℚ) : distLogs (telemetryBatch t h) = [] := rfl

/-- The state written by the distance/state block: classification is stored in
both `state` and `oldstate`, the distance in `olddistance`, and the LEDs are
rewritten exactly on an edge. -/
theorem distanceStep_state (d : Option ℤ) (s : LoopState) :
    (distanceStep d s).1 =
      { oldstate := doorOf d
        state := doorOf d
        olddistance := d
        last_msg_sent := s.last_msg_sent
        ledGreen := if doorOf d = s.oldstate then s.ledGreen else doorOf d
        ledRed := if doorOf d = s.oldstate then s.ledRed else !(doorOf d) } := by
  by_cases hd : s.olddistance = d <;> cases hso : s.oldstate <;> cases hst : doorOf d <;>
    simp [distanceStep, hd, hso, hst]

/-- The events of the distance/state block: the optional distance log followed
by the optional edge publish with its two LED writes. -/
theorem distanceStep_events (d : Option ℤ) (s : LoopState) :
    (distanceStep d s).2 =
      (if s.olddistance = d then [] else [Event.logNewDistance d]) ++
      (if doorOf d = s.oldstate then []
       else if doorOf d then
         [Event.publish MQTT_TOPIC (Pay.txt "garage_opened"),
          Event.digitalWrite Pin.green true, Event.digitalWrite Pin.red false]
       else
         [Event.publish MQTT_TOPIC (Pay.txt "garage_closed"),
          Event.digitalWrite Pin.green false, Event.digitalWrite Pin.red true]) := by
  by_cases hd : s.olddistance = d <;> cases hso : s.oldstate <;> cases hst : doorOf d <;>
    simp [distanceStep, hd, hso, hst]

/-- The distance/state block publishes nothing on a telemetry topic. -/
theorem telemetryPubs_distanceStep (d : Option ℤ) (s : LoopState) :
    telemetryPubs (distanceStep d s).2 = [] := by
  rw [telemetryPubs, distanceStep_events, List.filter_append]
  have h1 : List.filter isTelemetryPub
      (if s.olddistance = d then [] else [Event.logNewDistance d]) = [] := by
    by_cases hd : s.olddistance = d
    · simp only [if_pos hd]; rfl
    · simp only [if_neg hd]; rfl
  have h2 : List.filter isTelemetryPub
      (if doorOf d = s.oldstate then []
       else if doorOf d then
         [Event.publish MQTT_TOPIC (Pay.txt "garage_opened"),
          Event.digitalWrite Pin.green true, Event.digitalWrite Pin.red false]
       else
         [Event.publish MQTT_TOPIC (Pay.txt "garage_closed"),
          Event.digitalWrite Pin.green false, Event.digitalWrite Pin.red true]) = [] := by
    by_cases he : doorOf d = s.oldstate
    · simp only [if_pos he]; rfl
    · simp only [if_neg he]
      by_cases hst : doorOf d = true
      · simp only [if_pos hst]; decide
      · simp only [if_neg hst, Bool.not_eq_true] at *
        decide
  rw [h1, h2]
  rfl

/-- The edge publishes of the distance/state block. -/
theorem edgePubs_distanceStep (d : Option ℤ) (s : LoopState) :
    edgePubs (distanceStep d s).2 =
      (if doorOf d = s.oldstate then []
       else if doorOf d then [Event.publish MQTT_TOPIC (Pay.txt "garage_opened")]
       else [Event.publish MQTT_TOPIC (Pay.txt "garage_closed")]) := by
  rw [edgePubs, distanceStep_events, List.filter_append]
  have h1 : List.filter isEdgePub
      (if s.olddistance = d then [] else [Event.logNewDistance d]) = [] := by
    by_cases hd : s.olddistance = d
    · simp only [if_pos hd]; rfl
    · simp only [if_neg hd]; rfl
  rw [h1, List.nil_append]
  by_cases he : doorOf d = s.oldstate
  · simp only [if_pos he]; rfl
  · simp only [if_neg he]
    by_cases hst : doorOf d = true
    · simp only [if_pos hst]; decide
    · simp only [if_neg hst, Bool.not_eq_true] at *
      decide

/-- The distance logs of the distance/state block. -/
theorem distLogs_distanceStep (d : Option ℤ) (s : LoopState) :
    distLogs (distanceStep d s).2 =
      (if s.olddistance = d then [] else [Event.logNewDistance d]) := by
  rw [distLogs, distanceStep_events, List.filter_append]
  have h2 : List.filter isDistLog
      (if doorOf d = s.oldstate then []
       else if doorOf d then
         [Event.publish MQTT_TOPIC (Pay.txt "garage_opened"),
          Event.digitalWrite Pin.green true, Event.digitalWrite Pin.red false]
       else
         [Event.publish MQTT_TOPIC (Pay.txt "garage_closed"),
          Event.digitalWrite Pin.green false, Event.digitalWrite Pin.red true]) = [] := by
    by_cases he : doorOf d = s.oldstate
    · simp only [if_pos he]; rfl
    · simp only [if_neg he]
      by_cases hst : doorOf d = true
      · simp only [if_pos hst]; decide
      · simp only [if_neg hst, Bool.not_eq_true] at *
        decide
  rw [h2, List.append_nil]
  by_cases hd : s.olddistance = d
  · simp only [if_pos hd]; rfl
  · simp only [if_neg hd]; rfl

/-- `edgePubs` distributes over concatenation of event lists. -/
theorem edgePubs_append (a b : List Event) : edgePubs (a ++ b) = edgePubs a ++ edgePubs b :=
  List.filter_append a b

/-- `telemetryPubs` distributes over concatenation of event lists. -/
theorem telemetryPubs_append (a b : List Event) :
    telemetryPubs (a ++ b) = telemetryPubs a ++ telemetryPubs b :=
  List.filter_append a b

/-- `distLogs` distributes over concatenation of event lists. -/
theorem distLogs_append (a b : List Event) : distLogs (a ++ b) = distLogs a ++ distLogs b :=
  List.filter_append a b

/-- On an expired interval the telemetry block fires: timestamp reset to `now`
and the three-message batch emitted. -/
theorem telemetryStep_pos {now last : ℤ} (t h : Option ℚ) (ht : 10000 < now - last) :
    telemetryStep now t h last = (now, telemetryBatch t h) := by
  unfold telemetryStep
  rw [if_pos ht]

/-- On an unexpired interval the telemetry block is inert. -/
theorem telemetryStep_neg {now last : ℤ} (t h : Option ℚ) (ht : ¬ 10000 < now - last) :
    telemetryStep now t h last = (last, []) := by
  unfold telemetryStep
  rw [if_neg ht]

/-- The events of one full `loop()` pass are the four program blocks in source
order: reconnection, telemetry, distance/state, final sleep. -/
theorem loopTick_events (inp : TickInput) (s : LoopState) :
    (loopTick inp s).2 =
      (if inp.connected then [] else reconnectTrace inp.attempts) ++
        (telemetryStep inp.now inp.temp inp.humi s.last_msg_sent).2 ++
        (distanceStep inp.dist
          { s with last_msg_sent :=
              (telemetryStep inp.now inp.temp inp.humi s.last_msg_sent).1 }).2 ++
        [Event.delayMs SLEEPMS] := rfl

/-- The state after one full `loop()` pass. -/
theorem loopTick_state (inp : TickInput) (s : LoopState) :
    (loopTick inp s).1 =
      { oldstate := doorOf inp.dist
        state := doorOf inp.dist
        olddistance := inp.dist
        last_msg_sent :=
          if 10000 < inp.now - s.last_msg_sent then inp.now else s.last_msg_sent
        ledGreen := if doorOf inp.dist = s.oldstate then s.ledGreen else doorOf inp.dist
        ledRed := if doorOf inp.dist = s.oldstate then s.ledRed else !(doorOf inp.dist) } := by
  have h1 : (loopTick inp s).1 = (distanceStep inp.dist
      { s with last_msg_sent :=
          (telemetryStep inp.now inp.temp inp.humi s.last_msg_sent).1 }).1 := rfl
  rw [h1, distanceStep_state]
  by_cases ht : 10000 < inp.now - s.last_msg_sent
  · rw [telemetryStep_pos inp.temp inp.humi ht]
    simp only [if_pos ht]
  · rw [telemetryStep_neg inp.temp inp.humi ht]
    simp only [if_neg ht]

/-- The edge publishes of one full `loop()` pass. -/
theorem edgePubs_loopTick (inp : TickInput) (s : LoopState) :
    edgePubs (loopTick inp s).2 =
      (if doorOf inp.dist = s.oldstate then []
       else if doorOf inp.dist then [Event.publish MQTT_TOPIC (Pay.txt "garage_opened")]
       else [Event.publish MQTT_TOPIC (Pay.txt "garage_closed")]) := by
  have hA : edgePubs (if inp.connected then [] else reconnectTrace inp.attempts) = [] := by
    cases hc : inp.connected
    · exact edgePubs_reconnectTrace inp.attempts
    · rfl
  have hB : edgePubs (telemetryStep inp.now inp.temp inp.humi s.last_msg_sent).2 = [] := by
    by_cases ht : 10000 < inp.now - s.last_msg_sent
    · rw [telemetryStep_pos inp.temp inp.humi ht]
      exact edgePubs_telemetryBatch inp.temp inp.humi
    · rw [telemetryStep_neg inp.temp inp.humi ht]
      rfl
  have hC : edgePubs (distanceStep inp.dist
      { s with last_msg_sent :=
          (telemetryStep inp.now inp.temp inp.humi s.last_msg_sent).1 }).2 =
      (if doorOf inp.dist = s.oldstate then []
       else if doorOf inp.dist then [Event.publish MQTT_TOPIC (Pay.txt "garage_opened")]
       else [Event.publish MQTT_TOPIC (Pay.txt "garage_closed")]) :=
    edgePubs_distanceStep inp.dist _
  have hD : edgePubs [Event.delayMs SLEEPMS] = [] := rfl
  rw [loopTick_events, edgePubs_append, edgePubs_append, edgePubs_append, hA, hB, hC, hD]
  simp only [List.nil_append, List.append_nil]

/-- The telemetry publishes of one full `loop()` pass. -/
theorem telemetryPubs_loopTick (inp : TickInput) (s : LoopState) :
    telemetryPubs (loopTick inp s).2 =
      (if 10000 < inp.now - s.last_msg_sent then telemetryBatch inp.temp inp.humi
       else []) := by
  have hA : telemetryPubs (if inp.connected then [] else reconnectTrace inp.attempts) = [] := by
    cases hc : inp.connected
    · exact telemetryPubs_reconnectTrace inp.attempts
    · rfl
  have hC : telemetryPubs (distanceStep inp.dist
      { s with last_msg_sent :=
          (telemetryStep inp.now inp.temp inp.humi s.last_msg_sent).1 }).2 = [] :=
    telemetryPubs_distanceStep inp.dist _
  have hD : telemetryPubs [Event.delayMs SLEEPMS] = [] := rfl
  rw [loopTick_events, telemetryPubs_append, telemetryPubs_append, telemetryPubs_append,
    hA, hC, hD]
  by_cases ht : 10000 < inp.now - s.last_msg_sent
  · rw [telemetryStep_pos inp.temp inp.humi ht]
    simp only [if_pos ht, List.nil_append, List.append_nil]
    exact telemetryPubs_telemetryBatch inp.temp inp.humi
  · rw [telemetryStep_neg inp.temp inp.humi ht]
    simp only [if_neg ht, List.nil_append, List.append_nil]
    rfl

/-- The distance logs of one full `loop()` pass. -/
theorem distLogs_loopTick (inp : TickInput) (s : LoopState) :
    distLogs (loopTick inp s).2 =
      (if s.olddistance = inp.dist then [] else [Event.logNewDistance inp.dist]) := by
  have hA : distLogs (if inp.connected then [] else reconnectTrace inp.attempts) = [] := by
    cases hc : inp.connected
    · exact distLogs_reconnectTrace inp.attempts
    · rfl
  have hB : distLogs (telemetryStep inp.now inp.temp inp.humi s.last_msg_sent).2 = [] := by
    by_cases ht : 10000 < inp.now - s.last_msg_sent
    · rw [telemetryStep_pos inp.temp inp.humi ht]
      exact distLogs_telemetryBatch inp.temp inp.humi
    · rw [telemetryStep_neg inp.temp inp.humi ht]
      rfl
  have hC : distLogs (distanceStep inp.dist
      { s with last_msg_sent :=
          (telemetryStep inp.now inp.temp inp.humi s.last_msg_sent).1 }).2 =
      (if s.olddistance = inp.dist then [] else [Event.logNewDistance inp.dist]) :=
    distLogs_distanceStep inp.dist _
  have hD : distLogs [Event.delayMs SLEEPMS] = [] := rfl
  rw [loopTick_events, distLogs_append, distLogs_append, distLogs_append, hA, hB, hC, hD]
  simp only [List.nil_append, List.append_nil]

/-! ## Claims -/

/-- C1 counterexample: with the door observed CLOSED on the very first tick
after `setup()` (rounded distance 5 cm < 20), the state-change message
`"garage_closed"` IS published, contradicting the claim that no edge event and
no state-change message occur on the first update regardless of the observed
state. -/
theorem C1_counterexample :
    Event.publish MQTT_TOPIC (Pay.txt "garage_closed") ∈
      (loopTick ⟨true, [], 0, some 21, some 55, some 5⟩ initState).2 := by
  decide

/-- C1 (amended): `setup()` hardcodes the baseline `oldstate = true` (OPEN)
rather than adopting the first observation, so on the very first `loop()` tick
no edge event is emitted iff the observed state is OPEN; when the first
observed state is CLOSED, an OPEN→CLOSED edge fires and `"garage_closed"` is
published (a spurious "door opened" is indeed impossible on boot).  The
observed state and distance do become the baseline for subsequent ticks. -/
theorem C1_first_tick_behavior (inp : TickInput) :
    (loopTick inp initState).1.oldstate = doorOf inp.dist ∧
    (loopTick inp initState).1.olddistance = inp.dist ∧
    edgePubs (loopTick inp initState).2 =
      (if doorOf inp.dist then []
       else [Event.publish MQTT_TOPIC (Pay.txt "garage_closed")]) := by
  refine ⟨?_, ?_, ?_⟩
  · rw [loopTick_state]
  · rw [loopTick_state]
  · rw [edgePubs_loopTick]
    by_cases hst : doorOf inp.dist = true
    · simp [hst, initState]
    · simp only [Bool.not_eq_true] at hst
      simp [hst, initState]

/-- C2: the code has no special case for the raw sample 0: C `pow(0, -0.935)`
returns +inf without trapping (modelled `none`), so the loop does not crash,
but the distance +inf satisfies `newdistance >= 20` and the door is classified
OPEN (`state = true`), not CLOSED, and no out-of-range flag exists anywhere in
the sketch. -/
theorem C2_raw0_open :
    distOfRaw 0 = none ∧
    doorOf (distOfRaw 0) = true ∧
    (loopTick ⟨true, [], 0, some 21, some 55, distOfRaw 0⟩ initState).1.state = true :=
  ⟨rfl, rfl, rfl⟩

/-- C3: for every nonzero raw sample the distance is
`round (10650.08 * raw ^ (-0.935) - 10)` and the door is classified OPEN
exactly when that rounded distance is at least 20 cm; in particular the raw
sample 500 classifies as OPEN. -/
theorem C3_calibration (r : ℕ) (hr : 1 ≤ r) :
    distOfRaw r = some (round (cmOf r)) ∧
    (doorOf (distOfRaw r) = true ↔ 20 ≤ round (cmOf r)) ∧
    doorOf (distOfRaw 500) = true := by
  obtain ⟨k, rfl⟩ : ∃ k, r = k + 1 := ⟨r - 1, by omega⟩
  refine ⟨rfl, ?_, ?_⟩
  · show doorOf (some (round (cmOf (k + 1)))) = true ↔ _
    simp [doorOf]
  · show doorOf (some (round (cmOf 500))) = true
    simp [doorOf, round_cmOf_500_ge]

/-- C3 witness: instantiated at the raw sample 500. -/
theorem C3_calibration_witness :
    1 ≤ 500 ∧ doorOf (distOfRaw 500) = true :=
  ⟨by decide, (C3_calibration 500 (by decide)).2.2⟩

/-- C4: every tick stores its classification in `oldstate` and its distance in
`olddistance` (whether or not an edge fired); a tick publishes an edge message
iff its classification differs from the stored previous one —
`"garage_opened"` for CLOSED→OPEN, `"garage_closed"` for OPEN→CLOSED — and for
two consecutive ticks the second tick's edge publishes are determined by the
two classifications: exactly one `"garage_opened"` for (CLOSED, OPEN), none
when the states are equal. -/
theorem C4_edge_events (inp₁ inp₂ : TickInput) (s : LoopState) :
    (loopTick inp₁ s).1.oldstate = doorOf inp₁.dist ∧
    (loopTick inp₁ s).1.olddistance = inp₁.dist ∧
    edgePubs (loopTick inp₁ s).2 =
      (if doorOf inp₁.dist = s.oldstate then []
       else if doorOf inp₁.dist then [Event.publish MQTT_TOPIC (Pay.txt "garage_opened")]
       else [Event.publish MQTT_TOPIC (Pay.txt "garage_closed")]) ∧
    edgePubs (loopTick inp₂ (loopTick inp₁ s).1).2 =
      (if doorOf inp₂.dist = doorOf inp₁.dist then []
       else if doorOf inp₂.dist then [Event.publish MQTT_TOPIC (Pay.txt "garage_opened")]
       else [Event.publish MQTT_TOPIC (Pay.txt "garage_closed")]) := by
  refine ⟨?_, ?_, edgePubs_loopTick inp₁ s, ?_⟩
  · rw [loopTick_state]
  · rw [loopTick_state]
  · rw [edgePubs_loopTick, loopTick_state]

/-- C5 counterexample: with `last_msg_sent = 0` and `now = 10000` the elapsed
time equals the interval exactly (so `now - last ≥ 10000` holds and the claim
demands a fire), yet the code's strict comparison
`now - last_msg_sent > 10000` does not fire: no telemetry publish occurs and
the timestamp is not reset. -/
theorem C5_counterexample :
    (10000 : ℤ) - initState.last_msg_sent = 10000 ∧
    telemetryPubs (loopTick ⟨true, [], 10000, some 21, some 55, some 0⟩ initState).2 = [] ∧
    (loopTick ⟨true, [], 10000, some 21, some 55, some 0⟩ initState).1.last_msg_sent = 0 := by
  decide

/-- C5 (amended): the scheduler fires exactly when `now - last_msg_sent`
STRICTLY exceeds 10000 ms (not ≥); on firing it resets `last_msg_sent` to
`now` (not `now + interval`) and emits the single three-message batch, so a
`now` jump of more than one interval still fires exactly once; after a fire at
`now₁`, the following tick fires iff its `now₂` exceeds `now₁` by strictly
more than 10000 ms, so the scheduler fires at most once per interval window. -/
theorem C5_scheduler (inp₁ inp₂ : TickInput) (s : LoopState) :
    ((loopTick inp₁ s).1.last_msg_sent =
      (if 10000 < inp₁.now - s.last_msg_sent then inp₁.now else s.last_msg_sent)) ∧
    (telemetryPubs (loopTick inp₁ s).2 =
      (if 10000 < inp₁.now - s.last_msg_sent then telemetryBatch inp₁.temp inp₁.humi
       else [])) ∧
    (10000 < inp₁.now - s.last_msg_sent →
      telemetryPubs (loopTick inp₂ (loopTick inp₁ s).1).2 =
        (if 10000 < inp₂.now - inp₁.now then telemetryBatch inp₂.temp inp₂.humi
         else [])) := by
  refine ⟨?_, telemetryPubs_loopTick inp₁ s, ?_⟩
  · rw [loopTick_state]
  · intro h1
    rw [telemetryPubs_loopTick, loopTick_state]
    simp only [if_pos h1]

/-- C5 witness: a fire at 20001 ms (elapsed 20001 > 10000 from boot), then a
tick at 25000 ms — only 4999 ms after the reset timestamp — which must not
fire again. -/
theorem C5_scheduler_witness :
    10000 < (20001 : ℤ) - initState.last_msg_sent ∧
    telemetryPubs (loopTick ⟨true, [], 25000, some 1, some 2, some 0⟩
      (loopTick ⟨true, [], 20001, some 1, some 2, some 0⟩ initState).1).2 = [] := by
  refine ⟨by decide, ?_⟩
  have h := (C5_scheduler ⟨true, [], 20001, some 1, some 2, some 0⟩
      ⟨true, [], 25000, some 1, some 2, some 0⟩ initState).2.2 (by decide)
  simpa using h

/-- C6: `reconnect()` retries indefinitely with a fixed 5000 ms delay after
every failed attempt (no retry cap: after n failures it has emitted exactly n
backoff delays and nothing else, and is still retrying), and after any number
n of failed attempts followed by one success it publishes `"sensor_online"`
exactly once, immediately after the successful attempt. -/
theorem C6_reconnect_policy (n : ℕ) :
    reconnectTrace (List.replicate n false ++ [true]) =
      List.replicate n (Event.delayMs 5000) ++
        [Event.publish MQTT_TOPIC (Pay.txt "sensor_online")] ∧
    reconnectTrace (List.replicate n false) = List.replicate n (Event.delayMs 5000) := by
  induction n with
  | zero => exact ⟨rfl, rfl⟩
  | succ k ih => simp [List.replicate_succ, reconnectTrace, ih.1, ih.2]

/-- C7: whenever the scheduler fires, the tick publishes exactly the three
telemetry messages `"ping"`, temperature, humidity — for every combination of
DHT read outcomes: a failed (NaN) read is still published, as the `"nan"`
marker (`Pay.reading none`), rather than skipped, and the ping is emitted
regardless of read success or failure. -/
theorem C7_fire_telemetry (inp : TickInput) (s : LoopState)
    (h : 10000 < inp.now - s.last_msg_sent) :
    telemetryPubs (loopTick inp s).2 =
      [Event.publish MQTT_SENSORS (Pay.txt "ping"),
       Event.publish MQTT_TEMP (Pay.reading inp.temp),
       Event.publish MQTT_HUMI (Pay.reading inp.humi)] := by
  rw [telemetryPubs_loopTick]
  simp only [if_pos h]
  rfl

/-- C7 witness: at a fire with temperature 21.5 °C and a failed (NaN) humidity
read, the tick still publishes the ping, the numeric temperature and the
humidity unavailable marker. -/
theorem C7_fire_telemetry_witness :
    10000 < (20000 : ℤ) - initState.last_msg_sent ∧
    telemetryPubs (loopTick ⟨true, [], 20000, some (43/2), none, some 0⟩ initState).2 =
      [Event.publish MQTT_SENSORS (Pay.txt "ping"),
       Event.publish MQTT_TEMP (Pay.reading (some (43/2))),
       Event.publish MQTT_HUMI (Pay.reading none)] :=
  ⟨by decide,
   C7_fire_telemetry ⟨true, [], 20000, some (43/2), none, some 0⟩ initState (by decide)⟩

/-- C8: each tick stores its rounded distance in the device-lifetime
`olddistance` (the tick-local `newdistance` shadows only the dead file-scope
`newdistance`, never the previous-value variable), so on the following tick
the `"New distance"` log fires exactly when the new rounded distance differs
from the true previous tick's rounded distance, independent of whether a
door-state edge fired. -/
theorem C8_distance_log (inp₁ inp₂ : TickInput) (s : LoopState) :
    (loopTick inp₁ s).1.olddistance = inp₁.dist ∧
    distLogs (loopTick inp₂ (loopTick inp₁ s).1).2 =
      (if inp₁.dist = inp₂.dist then [] else [Event.logNewDistance inp₂.dist]) := by
  refine ⟨?_, ?_⟩
  · rw [loopTick_state]
  · rw [distLogs_loopTick, loopTick_state]

/-- C9 counterexample: after `setup()` both indicator LEDs are at the LOW
reset level, and they remain off through a first tick observing OPEN
(distance 25 ≥ 20, no edge since the baseline is OPEN) — reachable lifetime
points with zero indicators active, contradicting "exactly one of the two
indicators active at every point in the process lifetime". -/
theorem C9_counterexample :
    (initState.ledGreen || initState.ledRed) = false ∧
    ((loopTick ⟨true, [], 0, some 21, some 55, some 25⟩ initState).1.ledGreen ||
      (loopTick ⟨true, [], 0, some 21, some 55, some 25⟩ initState).1.ledRed) = false := by
  decide

/-- C9 (amended): before the first edge event both indicators are inactive
(`setup()` configures the pins but never writes them); on each edge event the
indicator of the new state is driven and the other turned off (green for OPEN,
red for CLOSED), edge-free ticks leave both unchanged — hence from the first
edge event onward exactly one indicator is active at a time. -/
theorem C9_led_behavior (inp : TickInput) (s : LoopState) :
    ((loopTick inp s).1.ledGreen =
      (if doorOf inp.dist = s.oldstate then s.ledGreen else doorOf inp.dist)) ∧
    ((loopTick inp s).1.ledRed =
      (if doorOf inp.dist = s.oldstate then s.ledRed else !(doorOf inp.dist))) ∧
    (s.ledGreen = !s.ledRed → (loopTick inp s).1.ledGreen = !(loopTick inp s).1.ledRed) ∧
    initState.ledGreen = false ∧ initState.ledRed = false := by
  refine ⟨?_, ?_, ?_, rfl, rfl⟩
  · rw [loopTick_state]
  · rw [loopTick_state]
  · intro hinv
    rw [loopTick_state]
    by_cases he : doorOf inp.dist = s.oldstate
    · simp only [if_pos he]
      exact hinv
    · simp only [if_neg he, Bool.not_not]

/-- C9 witness: from a post-edge state with the green indicator on and the red
off (exactly one active), a further tick preserves the exactly-one-active
invariant. -/
theorem C9_led_behavior_witness :
    ((⟨true, true, some 25, 0, true, false⟩ : LoopState).ledGreen =
      !(⟨true, true, some 25, 0, true, false⟩ : LoopState).ledRed) ∧
    ((loopTick ⟨true, [], 0, some 21, some 55, some 5⟩
        ⟨true, true, some 25, 0, true, false⟩).1.ledGreen =
      !(loopTick ⟨true, [], 0, some 21, some 55, some 5⟩
        ⟨true, true, some 25, 0, true, false⟩).1.ledRed) :=
  ⟨rfl, (C9_led_behavior ⟨true, [], 0, some 21, some 55, some 5⟩
      ⟨true, true, some 25, 0, true, false⟩).2.2.1 rfl⟩

/-- C10: on every tick where the scheduler fires — whether the tick begins
connected or must reconnect first — the tick's event list is the reconnection
events (if any) followed by exactly the three telemetry publishes in order —
ping, then temperature, then humidity — followed by the distance/state block's
events and the final sleep; neither the reconnection events nor the distance
block contain a telemetry publish, so exactly three messages are published by
the fire, all before the distance sample's log and before any state-change
publish of the same tick. -/
theorem C10_fire_order (inp : TickInput) (s : LoopState)
    (h : 10000 < inp.now - s.last_msg_sent) :
    (loopTick inp s).2 =
      (if inp.connected then [] else reconnectTrace inp.attempts) ++
        telemetryBatch inp.temp inp.humi ++
        (distanceStep inp.dist { s with last_msg_sent := inp.now }).2 ++
        [Event.delayMs SLEEPMS] ∧
    telemetryPubs (if inp.connected then [] else reconnectTrace inp.attempts) = [] ∧
    telemetryPubs (distanceStep inp.dist { s with last_msg_sent := inp.now }).2 = [] := by
  refine ⟨?_, ?_, telemetryPubs_distanceStep inp.dist _⟩
  · rw [loopTick_events, telemetryStep_pos inp.temp inp.humi h]
  · cases hc : inp.connected
    · exact telemetryPubs_reconnectTrace inp.attempts
    · rfl

/-- C10 witness: a firing tick at 20000 ms that begins disconnected; the
reconnection (one failure, then success) precedes the three ordered telemetry
publishes, which precede the distance block's events. -/
theorem C10_fire_order_witness :
    10000 < (20000 : ℤ) - initState.last_msg_sent ∧
    (loopTick ⟨false, [false, true], 20000, some 21, none, some 5⟩ initState).2 =
      reconnectTrace [false, true] ++
        telemetryBatch (some 21) none ++
        (distanceStep (some 5) { initState with last_msg_sent := 20000 }).2 ++
        [Event.delayMs SLEEPMS] :=
  ⟨by decide,
   (C10_fire_order ⟨false, [false, true], 20000, some 21, none, some 5⟩ initState
      (by decide)).1⟩
